import Mathlib

/-!
Verification of the Linux Bluetooth access layer (`bt.c` / `bt_linux.h`)
against its natural-language specification.

The C source is shallowly embedded: bytes are `Nat`s (reduced mod 256 where
the code casts), buffers are `List Nat`, kernel/syscall behaviour is supplied
through explicit environment structures, and the C `for` loops are translated
to fuel-indexed recursions whose fuel equals the loop-bound, so every
definition is executable.
-/

set_option maxRecDepth 4000

/-- `const int kMaxLEPayloadSize = 26;` (bt.c line 34). -/
def kMaxLEPayloadSize : Nat := 26

/-- `const int kMaxChannel = 30;` (bt.c line 35). -/
def kMaxChannel : Nat := 30

/-- `const int kMaxDevices = 5;` (bt.c line 36). -/
def kMaxDevices : Nat := 5

/-- `const int kMaxNameLength = 31;` (bt.c line 306). -/
def kMaxNameLength : Nat := 31

/-- Error classification of the `asprintf` error strings produced by bt.c,
following the spec's taxonomy (spec section 7). -/
inductive BtErr where
  | socketError
  | devInfoError
  | openError (devId : Int)
  | bindError (addr : String) (ch : Nat)
  | noDevice
  | noChannel
  | payloadTooLarge
  | wrongEventType (code : Nat)
  deriving DecidableEq

/-- Kernel-side behaviour visible to `bt_bind` (bt.c lines 87-133):
`openDev d` is the address yielded by a successful `bt_open_device` probe of
device id `d` (`none` when the probe fails), and `bindOk a c` is whether the
`bind(2)` call on `(address a, rc_channel c)` succeeds. -/
structure BtEnv where
  openDev : Nat → Option String
  bindOk : String → Nat → Bool

/-- The observable outcome of `bt_bind`: the returned error string (as a
`BtErr`), the final contents of the caller's `*local_address` slot (`none`
models NULL or the dangling pointer left after the device loop frees it),
and the final contents of the caller's `*channel` slot. -/
structure BindOut where
  err : Option BtErr
  addr : Option String
  channel : Nat
  deriving DecidableEq

/-- The third branch of `bt_bind` (bt.c lines 122-132): a single `bind(2)`
attempt with `addr.rc_channel = (uint8_t) *channel`. -/
def bindSingle (env : BtEnv) (a : String) (ch : Nat) : Option BtErr :=
  if env.bindOk a (ch % 256) then none else some (.bindError a (ch % 256))

/-- The channel loop of `bt_bind` (bt.c lines 113-121):
`for (*channel = 1; *channel < kMaxChannel; (*channel)++)`, each iteration a
recursive `bt_bind` that lands in the single-bind branch.  `fuel` is
`kMaxChannel - c`, so fuel 0 is exactly the loop exiting with
`*channel == kMaxChannel` and the exhaustion error (bt.c line 120).
Returns the error (or `none` for success) and the final `*channel` value. -/
def chanLoop (env : BtEnv) (a : String) : Nat → Nat → Option BtErr × Nat
  | 0, c => (some .noChannel, c)
  | fuel + 1, c =>
    match bindSingle env a c with
    | some _ => chanLoop env a fuel (c + 1)
    | none => (none, c)

/-- The `*channel == 0` and `*channel > 0` branches of `bt_bind`
(bt.c lines 111-132), entered with `*local_address` already non-NULL. -/
def bindWith (env : BtEnv) (a : String) (ch : Nat) : BindOut :=
  if ch = 0 then
    let r := chanLoop env a (kMaxChannel - 1) 1
    { err := r.1, addr := some a, channel := r.2 }
  else
    { err := bindSingle env a ch, addr := some a, channel := ch }

/-- The device loop of `bt_bind` (bt.c lines 95-108):
`for (dev_id = 0; dev_id < kMaxDevices; dev_id++)`, probing (and immediately
closing) each device, then recursing into `bt_bind` with the probed address.
`fuel` is `kMaxDevices - d`; fuel 0 is the loop exiting with the
no-device error (bt.c line 109).  The caller's `*channel` slot threads
through the failed iterations unreset, exactly as in the source. -/
def devLoop (env : BtEnv) : Nat → Nat → Nat → BindOut
  | 0, _, ch => { err := some .noDevice, addr := none, channel := ch }
  | fuel + 1, d, ch =>
    match env.openDev d with
    | none => devLoop env fuel (d + 1) ch
    | some a =>
      let r := bindWith env a ch
      match r.err with
      | none => r
      | some _ => devLoop env fuel (d + 1) r.channel

/-- `bt_bind` (bt.c lines 87-133). -/
def bt_bind (env : BtEnv) (localAddress : Option String) (channel : Nat) : BindOut :=
  match localAddress with
  | none => devLoop env kMaxDevices 0 channel
  | some a => bindWith env a channel

/-- The candidate channels `1, 2, …, 29` filtered for the first one the
kernel accepts, used to characterise the channel loop. -/
def firstChan (env : BtEnv) (a : String) : Option Nat :=
  (List.range' 1 (kMaxChannel - 1)).find? (fun c => env.bindOk a (c % 256))

lemma chanLoop_spec (env : BtEnv) (a : String) :
    ∀ (fuel c : Nat),
      chanLoop env a fuel c =
        match (List.range' c fuel).find? (fun k => env.bindOk a (k % 256)) with
        | some k => (none, k)
        | none => (some .noChannel, c + fuel) := by
  intro fuel
  induction fuel with
  | zero => intro c; simp [chanLoop, List.range']
  | succ f ih =>
    intro c
    rw [List.range'_succ]
    by_cases h : env.bindOk a (c % 256)
    · simp [chanLoop, bindSingle, h, List.find?_cons_of_pos]
    · have hb : bindSingle env a c = some (.bindError a (c % 256)) := by
        simp [bindSingle, h]
      have : chanLoop env a (f + 1) c = chanLoop env a f (c + 1) := by
        simp [chanLoop, hb]
      rw [this, ih (c + 1), List.find?_cons_of_neg _ (by simp [h])]
      have hc : c + 1 + f = c + (f + 1) := by omega
      cases hfind : (List.range' (c + 1) f).find? (fun k => env.bindOk a (k % 256)) with
      | none => simp [hc]
      | some k => simp

lemma devLoop_skip (env : BtEnv) :
    ∀ (k fuel d ch : Nat), (∀ j, j < k → env.openDev (d + j) = none) →
      devLoop env (k + fuel) d ch = devLoop env fuel (d + k) ch := by
  intro k
  induction k with
  | zero => intro fuel d ch _; simp
  | succ m ih =>
    intro fuel d ch h
    have hstep : m + 1 + fuel = (m + fuel) + 1 := by omega
    rw [hstep]
    have h0 : env.openDev d = none := by
      have := h 0 (by omega)
      simpa using this
    show devLoop env ((m + fuel) + 1) d ch = _
    rw [show devLoop env ((m + fuel) + 1) d ch = devLoop env (m + fuel) (d + 1) ch by
          simp [devLoop, h0]]
    rw [ih fuel (d + 1) ch (fun j hj => by
          have := h (j + 1) (by omega)
          simpa [Nat.add_assoc, Nat.add_comm 1 j] using this)]
    congr 1
    omega

/-- C7: with `*local_address` supplied and `*channel` the sentinel 0,
channels 1 through 29 are attempted in ascending order; the first successful
bind is returned (with that channel written back), and if none succeeds the
per-iteration bind errors are swallowed and replaced by the
NoChannelAvailable exhaustion error. -/
theorem bind_channel_search_spec (env : BtEnv) (a : String) :
    bt_bind env (some a) 0 =
      match firstChan env a with
      | some c => { err := none, addr := some a, channel := c }
      | none => { err := some .noChannel, addr := some a, channel := kMaxChannel } := by
  show bindWith env a 0 = _
  rw [bindWith]
  simp only [if_pos rfl]
  rw [chanLoop_spec]
  rw [firstChan]
  cases h : (List.range' 1 (kMaxChannel - 1)).find? (fun c => env.bindOk a (c % 256)) with
  | none => simp [h, kMaxChannel]
  | some k => simp [h]

/-- C9: with `*local_address` supplied, `*channel = 0`, and no channel in
1..29 accepted by the kernel, `bt_bind` fails with the NoChannelAvailable
exhaustion error and leaves the caller's `*channel` slot at
`kMaxChannel = 30` — outside the valid range, and in particular not restored
to the sentinel 0. -/
theorem channel_exhaustion_leaves_kMaxChannel (env : BtEnv) (a : String)
    (h : ∀ c, 1 ≤ c → c ≤ 29 → env.bindOk a (c % 256) = false) :
    bt_bind env (some a) 0 =
      { err := some .noChannel, addr := some a, channel := kMaxChannel } ∧
    kMaxChannel = 30 ∧ ¬ (kMaxChannel ≤ 29 ∨ kMaxChannel = 0) := by
  refine ⟨?_, rfl, by simp [kMaxChannel]⟩
  show bindWith env a 0 = _
  rw [bindWith]
  simp only [if_pos rfl]
  rw [chanLoop_spec]
  have hnone : (List.range' 1 (kMaxChannel - 1)).find?
      (fun k => env.bindOk a (k % 256)) = none := by
    rw [List.find?_eq_none]
    intro x hx
    have hx' := List.mem_range'_1.mp hx
    simp only [kMaxChannel] at hx'
    simp [h x (by omega) (by omega)]
  rw [hnone]
  simp [kMaxChannel]

/-- Environment for the exhaustion witness: every bind attempt is refused. -/
def envAllRefuse : BtEnv := { openDev := fun _ => none, bindOk := fun _ _ => false }

theorem channel_exhaustion_leaves_kMaxChannel_witness :
    bt_bind envAllRefuse (some "AA:BB:CC:DD:EE:FF") 0 =
      { err := some .noChannel, addr := some "AA:BB:CC:DD:EE:FF",
        channel := kMaxChannel } ∧
    kMaxChannel = 30 ∧ ¬ (kMaxChannel ≤ 29 ∨ kMaxChannel = 0) :=
  channel_exhaustion_leaves_kMaxChannel envAllRefuse "AA:BB:CC:DD:EE:FF"
    (fun _ _ _ => rfl)

/-- Environment refuting C2: device 0 opens with address "A" but accepts no
channel; device 1 opens with address "B" and accepts exactly channel 1. -/
def envTwoDevices : BtEnv :=
  { openDev := fun d => if d = 0 then some "A" else if d = 1 then some "B" else none,
    bindOk := fun a c => a == "B" && c == 1 }

/-- Counterexample to C2: the working combination (device 1, channel 1)
exists and device 1 opens, yet `bt_bind` with both sentinels returns the
NoDeviceAvailable error instead of binding it — after device 0's channel
search exhausts, device 1 is only ever tried at the residual channel 30,
never at channels 1..29. -/
theorem bind_both_sentinels_counterexample :
    envTwoDevices.openDev 1 = some "B" ∧
    envTwoDevices.bindOk "B" 1 = true ∧
    (bt_bind envTwoDevices none 0).err = some BtErr.noDevice := by
  refine ⟨rfl, rfl, ?_⟩
  decide

/-- C2 as amended: with both sentinels, device ids 0,1,…,4 are probed in
ascending order, and channels 1,…,29 are tried in ascending order against
the FIRST device that opens; if some channel binds there, that device's
address and the lowest such channel are returned.  But if the first opened
device's channel search exhausts, the caller's `*channel` slot is left at 30
and the remaining devices are attempted with a single bind at channel 30
each, not with a fresh 1..29 search. -/
theorem bind_both_sentinels_first_open_device (env : BtEnv) (d : Nat) (a : String)
    (hd : d < kMaxDevices)
    (hskip : ∀ j, j < d → env.openDev j = none)
    (hopen : env.openDev d = some a) :
    (∀ c, firstChan env a = some c →
        bt_bind env none 0 = { err := none, addr := some a, channel := c })
    ∧ (firstChan env a = none →
        bt_bind env none 0 = devLoop env (kMaxDevices - d - 1) (d + 1) kMaxChannel) := by
  have hsplit : bt_bind env none 0 = devLoop env ((kMaxDevices - d - 1) + 1) d 0 := by
    show devLoop env kMaxDevices 0 0 = _
    set m := kMaxDevices - d - 1 with hm
    have hk : kMaxDevices = d + (m + 1) := by
      simp only [kMaxDevices, hm] at hd ⊢; omega
    rw [hk, devLoop_skip env d (m + 1) 0 0 (fun j hj => by simpa using hskip j hj)]
    simp
  have hbody : devLoop env ((kMaxDevices - d - 1) + 1) d 0 =
      let r := bindWith env a 0
      match r.err with
      | none => r
      | some _ => devLoop env (kMaxDevices - d - 1) (d + 1) r.channel := by
    simp [devLoop, hopen]
  have hbw : bindWith env a 0 =
      match firstChan env a with
      | some c => { err := none, addr := some a, channel := c }
      | none => { err := some .noChannel, addr := some a, channel := kMaxChannel } := by
    rw [bindWith]
    simp only [if_pos rfl]
    rw [chanLoop_spec]
    rw [firstChan]
    cases h : (List.range' 1 (kMaxChannel - 1)).find? (fun c => env.bindOk a (c % 256)) with
    | none => simp [h, kMaxChannel]
    | some k => simp [h]
  constructor
  · intro c hc
    rw [hsplit, hbody, hbw, hc]
  · intro hc
    rw [hsplit, hbody, hbw, hc]

/-- Environment for the amended-C2 witness: device 0 opens with address "A"
which accepts exactly channel 3. -/
def envFirstDevWorks : BtEnv :=
  { openDev := fun d => if d = 0 then some "A" else none,
    bindOk := fun a c => a == "A" && c == 3 }

theorem bind_both_sentinels_first_open_device_witness :
    bt_bind envFirstDevWorks none 0 = { err := none, addr := some "A", channel := 3 } :=
  (bind_both_sentinels_first_open_device envFirstDevWorks 0 "A" (by decide)
      (fun j hj => absurd hj (Nat.not_lt_zero j)) rfl).1 3 (by decide)

/-- Environment refuting C6: device 0 opens with address "A" accepting no
channel, device 1 opens with address "B" accepting exactly channel 30. -/
def envResidual30 : BtEnv :=
  { openDev := fun d => if d = 0 then some "A" else if d = 1 then some "B" else none,
    bindOk := fun a c => a == "B" && c == 30 }

/-- Counterexample to C6: with both sentinels, the resolver can SUCCEED with
channel 30, outside the claimed range [1, 29] — device 0's exhausted channel
search leaves `*channel = 30`, and device 1's single bind at that residual
value succeeds. -/
theorem resolver_channel_30_counterexample :
    (bt_bind envResidual30 none 0).err = none ∧
    (bt_bind envResidual30 none 0).channel = 30 ∧
    ¬ ((bt_bind envResidual30 none 0).channel ≤ 29) := by
  refine ⟨?_, ?_, ?_⟩ <;> decide

lemma devLoop_channel_bound (env : BtEnv) :
    ∀ (fuel d ch : Nat), (ch = 0 ∨ ch = kMaxChannel) →
      (devLoop env fuel d ch).err = none →
      1 ≤ (devLoop env fuel d ch).channel ∧
        (devLoop env fuel d ch).channel ≤ kMaxChannel := by
  intro fuel
  induction fuel with
  | zero => intro d ch _ herr; simp [devLoop] at herr
  | succ f ih =>
    intro d ch hch herr
    cases hopen : env.openDev d with
    | none =>
      rw [show devLoop env (f + 1) d ch = devLoop env f (d + 1) ch by
            simp [devLoop, hopen]] at herr ⊢
      exact ih (d + 1) ch hch herr
    | some a =>
      rcases hch with hch | hch
      · subst hch
        have hbw : bindWith env a 0 =
            match firstChan env a with
            | some c => { err := none, addr := some a, channel := c }
            | none => { err := some .noChannel, addr := some a, channel := kMaxChannel } := by
          rw [bindWith]
          simp only [if_pos rfl]
          rw [chanLoop_spec, firstChan]
          cases h : (List.range' 1 (kMaxChannel - 1)).find?
              (fun c => env.bindOk a (c % 256)) with
          | none => simp [h, kMaxChannel]
          | some k => simp [h]
        cases hfind : firstChan env a with
        | some c =>
          have hc : 1 ≤ c ∧ c ≤ kMaxChannel := by
            have hmem := List.mem_of_find?_eq_some
              (by rw [firstChan] at hfind; exact hfind)
            have := List.mem_range'_1.mp hmem
            simp only [kMaxChannel] at this ⊢
            omega
          rw [show devLoop env (f + 1) d 0 = bindWith env a 0 by
                simp [devLoop, hopen, hbw, hfind]] at herr ⊢
          rw [hbw, hfind]
          simpa using hc
        | none =>
          rw [show devLoop env (f + 1) d 0 = devLoop env f (d + 1) kMaxChannel by
                simp [devLoop, hopen, hbw, hfind]] at herr ⊢
          exact ih (d + 1) kMaxChannel (Or.inr rfl) herr
      · subst hch
        have hne : kMaxChannel ≠ 0 := by simp [kMaxChannel]
        cases hbs : bindSingle env a kMaxChannel with
        | none =>
          rw [show devLoop env (f + 1) d kMaxChannel =
                { err := none, addr := some a, channel := kMaxChannel } by
                simp [devLoop, hopen, bindWith, hne, hbs]] at herr ⊢
          simp [kMaxChannel]
        | some e =>
          rw [show devLoop env (f + 1) d kMaxChannel =
                devLoop env f (d + 1) kMaxChannel by
                simp [devLoop, hopen, bindWith, hne, hbs]] at herr ⊢
          exact ih (d + 1) kMaxChannel (Or.inr rfl) herr

/-- C6 as amended: a channel written back by a successful resolver call lies
in [1, 29] when the caller supplied the local address with channel sentinel
0; when BOTH address and channel were sentinels, it lies in [1, 30] — the
value 30 arises when an earlier opened device's channel search exhausted and
a later device accepted the residual channel value 30. -/
theorem resolver_channel_bounds (env : BtEnv) (a : String) :
    ((bt_bind env (some a) 0).err = none →
       1 ≤ (bt_bind env (some a) 0).channel ∧ (bt_bind env (some a) 0).channel ≤ 29)
    ∧ ((bt_bind env none 0).err = none →
       1 ≤ (bt_bind env none 0).channel ∧ (bt_bind env none 0).channel ≤ 30) := by
  constructor
  · intro herr
    have hbw : bt_bind env (some a) 0 =
        match firstChan env a with
        | some c => { err := none, addr := some a, channel := c }
        | none => { err := some .noChannel, addr := some a, channel := kMaxChannel } := by
      show bindWith env a 0 = _
      rw [bindWith]
      simp only [if_pos rfl]
      rw [chanLoop_spec, firstChan]
      cases h : (List.range' 1 (kMaxChannel - 1)).find?
          (fun c => env.bindOk a (c % 256)) with
      | none => simp [h, kMaxChannel]
      | some k => simp [h]
    cases hfind : firstChan env a with
    | some c =>
      have hmem := List.mem_of_find?_eq_some
        (by rw [firstChan] at hfind; exact hfind)
      have hc := List.mem_range'_1.mp hmem
      simp only [kMaxChannel] at hc
      rw [hbw, hfind]
      simp only
      omega
    | none => rw [hbw, hfind] at herr; simp at herr
  · intro herr
    have h := devLoop_channel_bound env kMaxDevices 0 0 (Or.inl rfl) herr
    simpa [kMaxChannel] using h

/-- Environment for the bounds witness: every device opens as "X" and every
bind succeeds. -/
def envAllAccept : BtEnv := { openDev := fun _ => some "X", bindOk := fun _ _ => true }

theorem resolver_channel_bounds_witness :
    (1 ≤ (bt_bind envAllAccept (some "X") 0).channel ∧
       (bt_bind envAllAccept (some "X") 0).channel ≤ 29) ∧
    (1 ≤ (bt_bind envAllAccept none 0).channel ∧
       (bt_bind envAllAccept none 0).channel ≤ 30) :=
  ⟨(resolver_channel_bounds envAllAccept "X").1 (by decide),
   (resolver_channel_bounds envAllAccept "X").2 (by decide)⟩

/-- `memcpy(buf, v, v.length)` into the front of `buf`: the copied bytes
replace the prefix, the remaining contents stay. -/
def overlay (buf v : List Nat) : List Nat := v ++ buf.drop v.length

/-- The `le_set_advertising_data_cp` command parameter filled by
`bt_set_le_advertising_payload`: a length field and the 31-byte `data`
array (zeroed by `memset` before the writes). -/
structure AdvDataCp where
  length : Nat
  data : List Nat
  deriving DecidableEq

/-- `bt_set_le_advertising_payload` (bt.c lines 235-274), up to the point
where the encoded command parameter is handed to `hci_send_req`: rejects a
payload longer than `kMaxLEPayloadSize`, otherwise writes
`2, EIR_FLAGS, 0x06, len+1, EIR_NAME_COMPLETE, payload…` into the zeroed
data array and records the running index as the length field. -/
def bt_set_le_advertising_payload (p : List Nat) : Except BtErr AdvDataCp :=
  if p.length > kMaxLEPayloadSize then .error .payloadTooLarge
  else .ok { length := 5 + p.length,
             data := overlay (List.replicate 31 0) ([2, 1, 6, p.length + 1, 9] ++ p) }

/-- The bytes actually written by the encoder: the prefix of the data array
covered by the recorded length field. -/
def encodedBytes (cp : AdvDataCp) : List Nat := cp.data.take cp.length

/-- One uppercase hex digit, as produced by `ba2str`'s `%2.2X`. -/
def hexDigit (n : Nat) : Char :=
  if n < 10 then Char.ofNat (48 + n) else Char.ofNat (55 + n)

/-- Two-digit uppercase hex rendering of one byte. -/
def byteHex (b : Nat) : String :=
  String.mk [hexDigit (b / 16 % 16), hexDigit (b % 16)]

/-- `ba2str`: the six little-endian address bytes rendered high-to-low,
colon-separated. -/
def baToStr (bd : List Nat) : String :=
  String.intercalate ":" (bd.reverse.map byteHex)

/-- An `int8_t` read of a byte. -/
def toInt8 (b : Nat) : Int :=
  if b % 256 < 128 then (b % 256 : Int) else (b % 256 : Int) - 256

/-- The EIR name walk of `bt_parse_le_meta_event` (bt.c lines 313-334),
operating on the remaining EIR bytes.  Each step reads `adv_data_length`,
stops on 0 or when the record would run past the end, reads the type byte,
copies the `adv_data_length - 1` value bytes over the front of the name
buffer when the type is EIR_NAME_SHORT (0x08) or EIR_NAME_COMPLETE (0x09)
and the value fits the 31-byte bound, then advances past the record.
`fuel` starts at the EIR length; every step consumes at least two bytes, so
the fuel never runs out before the list does. -/
def eirWalkAux (buf : List Nat) : Nat → List Nat → List Nat
  | _, [] => buf
  | 0, _ :: _ => buf
  | fuel + 1, len :: rest =>
    if len = 0 then buf
    else if rest.length < len then buf
    else
      let t := rest.headD 0
      let buf2 :=
        if (t = 8 ∨ t = 9) ∧ ¬(len - 1 > kMaxNameLength) then
          overlay buf ((rest.drop 1).take (len - 1))
        else buf
      eirWalkAux buf2 fuel (rest.drop len)

/-- The EIR name walk over a whole EIR data buffer. -/
def eirWalk (buf eir : List Nat) : List Nat := eirWalkAux buf eir.length eir

/-- The observable outcome of `bt_parse_le_meta_event`: error, the three
decoded outputs (`none` models an output location the function never
writes), and the `*done` flag (always written, 0 or 1). -/
structure ParseOut where
  err : Option BtErr
  remoteAddr : Option String
  remoteName : Option (List Nat)
  rssi : Option Int
  done : Nat
  deriving DecidableEq

/-- `bt_parse_le_meta_event` (bt.c lines 280-336).  Offsets into the raw
packet: byte 0 is the HCI packet type, bytes 1-2 the event header, byte 3
the meta subevent; for an advertising report the `le_advertising_info`
record starts at offset 5 (skipping the `num_reports` byte), so its
`bdaddr` is bytes 7..12, its `length` byte 13, its EIR data bytes 14.., and
the RSSI the byte at offset `14 + length`. -/
def bt_parse_le_meta_event (data : List Nat) : ParseOut :=
  let subevent := data.getD 3 0
  if subevent = 1 then
    { err := none, remoteAddr := none, remoteName := none, rssi := none, done := 1 }
  else if subevent = 2 then
    let bd := (data.drop 7).take 6
    let len := data.getD 13 0
    let eir := (data.drop 14).take len
    let rssiByte := data.getD (14 + len) 0
    { err := none,
      remoteAddr := some (baToStr bd),
      remoteName := some (eirWalk (List.replicate kMaxNameLength 0) eir),
      rssi := some (toInt8 rssiByte),
      done := 0 }
  else
    { err := some (.wrongEventType subevent), remoteAddr := none, remoteName := none,
      rssi := none, done := 0 }

/-- The name buffer read back as the C string it holds: the bytes up to the
first NUL. -/
def nameBytes (buf : List Nat) : List Nat := buf.takeWhile (fun b => b != 0)

/-- The name buffer as a string. -/
def nameToString (buf : List Nat) : String :=
  String.mk ((nameBytes buf).map Char.ofNat)

/-- The synthetic S3 buffer from the spec: HCI type 04, event header 3E 17,
subevent 02, num_reports 01, event_type 00, addr_type 00, address bytes
01..06, EIR length 08, one EIR record `07 09 "Sensor"`, trailing RSSI C0. -/
def s3Buffer : List Nat :=
  [4, 62, 23, 2, 1, 0, 0, 1, 2, 3, 4, 5, 6, 8, 7, 9, 83, 101, 110, 115, 111, 114, 192]

/-- C4: parsing the S3 buffer succeeds and yields remote address
"06:05:04:03:02:01" (little-endian bytes rendered high-to-low), remote name
"Sensor" (the copied record bytes followed by the zero padding of the
31-byte name buffer), RSSI -64 (byte 0xC0 at offset L read as signed), and
done = 0. -/
theorem parse_s3_report :
    bt_parse_le_meta_event s3Buffer =
      { err := none,
        remoteAddr := some "06:05:04:03:02:01",
        remoteName := some ([83, 101, 110, 115, 111, 114] ++ List.replicate 25 0),
        rssi := some (-64),
        done := 0 } ∧
    (bt_parse_le_meta_event s3Buffer).remoteName.map nameToString = some "Sensor" := by
  constructor <;> decide

/-- C3: `bt_parse_le_meta_event` dispatches on the subevent byte at offset 3:
1 means success with the done flag set and no address, name or RSSI written;
2 means success with done clear and a decoded advertising report; anything
else is a WrongEventType failure reporting the observed code. -/
theorem parse_subevent_dispatch (data : List Nat) (h : 3 < data.length) :
    (data.getD 3 0 = 1 →
       bt_parse_le_meta_event data =
         { err := none, remoteAddr := none, remoteName := none, rssi := none, done := 1 })
    ∧ (data.getD 3 0 = 2 →
       (bt_parse_le_meta_event data).err = none ∧
       (bt_parse_le_meta_event data).done = 0 ∧
       (bt_parse_le_meta_event data).remoteAddr.isSome = true ∧
       (bt_parse_le_meta_event data).remoteName.isSome = true ∧
       (bt_parse_le_meta_event data).rssi.isSome = true)
    ∧ (data.getD 3 0 ≠ 1 → data.getD 3 0 ≠ 2 →
       bt_parse_le_meta_event data =
         { err := some (.wrongEventType (data.getD 3 0)), remoteAddr := none,
           remoteName := none, rssi := none, done := 0 }) := by
  refine ⟨fun h1 => ?_, fun h2 => ?_, fun h1 h2 => ?_⟩
  · simp only [bt_parse_le_meta_event]
    rw [h1]
    simp
  · simp only [bt_parse_le_meta_event]
    rw [h2]
    simp
  · simp only [bt_parse_le_meta_event]
    rw [if_neg h1, if_neg h2]

theorem parse_subevent_dispatch_witness :
    bt_parse_le_meta_event [4, 62, 23, 5] =
      { err := some (.wrongEventType 5), remoteAddr := none,
        remoteName := none, rssi := none, done := 0 } :=
  (parse_subevent_dispatch [4, 62, 23, 5] (by decide)).2.2 (by decide) (by decide)

/-- C1: the payload encoder rejects payloads longer than 26 bytes with
PayloadTooLarge and emits nothing; otherwise the written EIR bytes are
exactly `02 01 06`, `len+1`, `09`, then the payload — a buffer of length
`5 + len` — and the recorded length field equals that sum and is ≤ 31. -/
theorem payload_encoder_spec (p : List Nat) :
    (p.length > 26 → bt_set_le_advertising_payload p = .error .payloadTooLarge)
    ∧ (p.length ≤ 26 →
        ∃ cp, bt_set_le_advertising_payload p = .ok cp ∧
          cp.length = 5 + p.length ∧ cp.length ≤ 31 ∧
          encodedBytes cp = [2, 1, 6, p.length + 1, 9] ++ p ∧
          (encodedBytes cp).length = 5 + p.length) := by
  constructor
  · intro h
    simp [bt_set_le_advertising_payload, kMaxLEPayloadSize, h]
  · intro h
    have hgt : ¬ (p.length > kMaxLEPayloadSize) := by
      simp [kMaxLEPayloadSize]; omega
    have hbytes : encodedBytes
        { length := 5 + p.length,
          data := overlay (List.replicate 31 0) ([2, 1, 6, p.length + 1, 9] ++ p) } =
        [2, 1, 6, p.length + 1, 9] ++ p := by
      show (overlay (List.replicate 31 0) ([2, 1, 6, p.length + 1, 9] ++ p)).take
          (5 + p.length) = _
      rw [overlay, List.take_left'
        (by simp only [List.length_append, List.length_cons, List.length_nil]; try omega)]
    refine ⟨{ length := 5 + p.length,
              data := overlay (List.replicate 31 0) ([2, 1, 6, p.length + 1, 9] ++ p) },
            by simp [bt_set_le_advertising_payload, hgt], rfl,
            by show 5 + p.length ≤ 31; omega, hbytes, ?_⟩
    rw [hbytes]
    simp only [List.length_append, List.length_cons, List.length_nil]
    try omega

theorem payload_encoder_spec_witness :
    ∃ cp, bt_set_le_advertising_payload [65, 108, 112, 104, 97] = .ok cp ∧
      cp.length = 5 + [65, 108, 112, 104, 97].length ∧ cp.length ≤ 31 ∧
      encodedBytes cp =
        [2, 1, 6, [65, 108, 112, 104, 97].length + 1, 9] ++ [65, 108, 112, 104, 97] ∧
      (encodedBytes cp).length = 5 + [65, 108, 112, 104, 97].length :=
  (payload_encoder_spec [65, 108, 112, 104, 97]).2 (by decide)

lemma eirWalkAux_nil (buf : List Nat) (fuel : Nat) : eirWalkAux buf fuel [] = buf := by
  cases fuel <;> rfl

lemma eirWalkAux_step (buf : List Nat) (fuel len : Nat) (rest : List Nat)
    (hf : fuel ≠ 0) (h1 : len ≠ 0) (h2 : ¬ (rest.length < len)) :
    eirWalkAux buf fuel (len :: rest) =
      eirWalkAux
        (if (rest.headD 0 = 8 ∨ rest.headD 0 = 9) ∧ ¬(len - 1 > kMaxNameLength) then
           overlay buf ((rest.drop 1).take (len - 1))
         else buf)
        (fuel - 1) (rest.drop len) := by
  cases fuel with
  | zero => exact absurd rfl hf
  | succ f => simp [eirWalkAux, h1, h2]

/-- Running the parser's EIR name walk over the encoder's output: the flags
record is skipped, the complete-local-name record is copied over the zeroed
buffer. -/
lemma eirWalk_encoded (p : List Nat) (hp : p.length ≤ 26) :
    eirWalk (List.replicate 31 0) (2 :: 1 :: 6 :: (p.length + 1) :: 9 :: p) =
      p ++ List.replicate (31 - p.length) 0 := by
  rw [eirWalk]
  have hlen : (2 :: 1 :: 6 :: (p.length + 1) :: 9 :: p).length = p.length + 5 := by
    simp
  rw [hlen]
  rw [eirWalkAux_step _ _ _ _ (by omega) (by omega) (by simp)]
  have hskip : ((1 : Nat) = 8 ∨ (1 : Nat) = 9) ∧ ¬((2 : Nat) - 1 > kMaxNameLength) ↔ False := by
    simp
  rw [if_neg (by simp)]
  have hdrop2 : (((1 : Nat) :: 6 :: (p.length + 1) :: 9 :: p).drop 2) =
      (p.length + 1) :: 9 :: p := rfl
  rw [hdrop2]
  rw [eirWalkAux_step _ _ _ _ (by omega) (by omega) (by simp)]
  simp only [List.headD_cons]
  rw [if_pos (⟨Or.inr trivial, by simp only [kMaxNameLength]; omega⟩ :
    ((9 : Nat) = 8 ∨ True) ∧ ¬(p.length + 1 - 1 > kMaxNameLength))]
  have hval : (((9 : Nat) :: p).drop 1).take (p.length + 1 - 1) = p := by
    simp
  rw [hval]
  have hnext : ((9 : Nat) :: p).drop (p.length + 1) = [] := by
    simp
  rw [hnext, eirWalkAux_nil]
  rw [overlay, List.drop_replicate]

/-- The synthetic advertising-info wrapper used by the round-trip claims:
HCI type, event header, subevent 02, num_reports 01, event type, address
type, a fixed 6-byte address, the EIR length, the EIR bytes, and a trailing
RSSI byte — the same framing as the spec's S3 buffer. -/
def wrapAdvReport (eir : List Nat) : List Nat :=
  4 :: 62 :: 23 :: 2 :: 1 :: 0 :: 0 :: 1 :: 2 :: 3 :: 4 :: 5 :: 6 ::
    eir.length :: (eir ++ [192])

/-- Parsing a wrapped report hands exactly the wrapped EIR bytes to the
name walk. -/
lemma parse_wrap_name (E : List Nat) :
    (bt_parse_le_meta_event (wrapAdvReport E)).remoteName =
      some (eirWalk (List.replicate kMaxNameLength 0) E) := by
  have hg3 : (wrapAdvReport E).getD 3 0 = 2 := rfl
  have hg13 : (wrapAdvReport E).getD 13 0 = E.length := rfl
  have hd14 : (wrapAdvReport E).drop 14 = E ++ [192] := rfl
  simp only [bt_parse_le_meta_event]
  rw [hg3, hg13, hd14]
  norm_num [List.take_left]

lemma nameBytes_append_zeros (k : Nat) :
    ∀ (p : List Nat), (∀ b ∈ p, b ≠ 0) → nameBytes (p ++ List.replicate k 0) = p := by
  intro p
  induction p with
  | nil =>
    intro _
    cases k with
    | zero => rfl
    | succ m => simp [nameBytes]
  | cons a t ih =>
    intro hz
    have ha : (a != 0) = true := by simpa using hz a (by simp)
    have ht : ∀ b ∈ t, b ≠ 0 := fun b hb => hz b (List.mem_cons_of_mem a hb)
    have hstep : nameBytes ((a :: t) ++ List.replicate k 0) =
        a :: nameBytes (t ++ List.replicate k 0) := by
      simp only [nameBytes, List.cons_append, List.takeWhile_cons, ha]
      simp
    rw [hstep, ih ht]

/-- C5: encode a NUL-free payload of at most 26 bytes, wrap the encoded
bytes in a synthetic advertising-info record, parse it: the name read back
from the 31-byte name buffer is the payload itself. -/
theorem eir_encode_parse_roundtrip (p : List Nat)
    (hp : p.length ≤ 26) (hz : ∀ b ∈ p, b ≠ 0) :
    ∃ cp, bt_set_le_advertising_payload p = .ok cp ∧
      ((bt_parse_le_meta_event (wrapAdvReport (encodedBytes cp))).remoteName).map nameBytes
        = some p := by
  have hgt : ¬ (p.length > kMaxLEPayloadSize) := by
    simp [kMaxLEPayloadSize]; omega
  have hbytes : encodedBytes
      { length := 5 + p.length,
        data := overlay (List.replicate 31 0) ([2, 1, 6, p.length + 1, 9] ++ p) } =
      [2, 1, 6, p.length + 1, 9] ++ p := by
    show (overlay (List.replicate 31 0) ([2, 1, 6, p.length + 1, 9] ++ p)).take
        (5 + p.length) = _
    rw [overlay, List.take_left'
      (by simp only [List.length_append, List.length_cons, List.length_nil]; try omega)]
  refine ⟨{ length := 5 + p.length,
            data := overlay (List.replicate 31 0) ([2, 1, 6, p.length + 1, 9] ++ p) },
          by simp [bt_set_le_advertising_payload, hgt], ?_⟩
  rw [hbytes]
  have heq : ([2, 1, 6, p.length + 1, 9] ++ p) =
      2 :: 1 :: 6 :: (p.length + 1) :: 9 :: p := rfl
  rw [heq, parse_wrap_name]
  simp only [kMaxNameLength]
  rw [eirWalk_encoded p hp]
  show some (nameBytes (p ++ List.replicate (31 - p.length) 0)) = some p
  rw [nameBytes_append_zeros (31 - p.length) p hz]

theorem eir_encode_parse_roundtrip_witness :
    ∃ cp, bt_set_le_advertising_payload [83, 101, 110, 115, 111, 114] = .ok cp ∧
      ((bt_parse_le_meta_event
          (wrapAdvReport (encodedBytes cp))).remoteName).map nameBytes
        = some [83, 101, 110, 115, 111, 114] :=
  eir_encode_parse_roundtrip [83, 101, 110, 115, 111, 114] (by decide) (by decide)

/-- C10: the 31-byte name buffer is zeroed once (the walk starts from
`replicate 31 0`) and every matching name record is copied to offset 0
without clearing previous contents, so for EIR data holding two name
records — the second no longer than the first — the parsed name is the
second record's bytes followed by the residual tail of the first, then the
untouched zero padding. -/
theorem eir_name_overlay (t1 t2 : Nat) (v1 v2 : List Nat)
    (ht1 : t1 = 8 ∨ t1 = 9) (ht2 : t2 = 8 ∨ t2 = 9)
    (h1 : v1.length ≤ 31) (h2 : v2.length ≤ v1.length) :
    (bt_parse_le_meta_event
        (wrapAdvReport
          ((v1.length + 1) :: t1 :: (v1 ++ (v2.length + 1) :: t2 :: v2)))).remoteName
      = some (v2 ++ v1.drop v2.length ++ List.replicate (31 - v1.length) 0) := by
  rw [parse_wrap_name]
  simp only [kMaxNameLength]
  rw [eirWalk]
  have hlen : ((v1.length + 1) :: t1 :: (v1 ++ (v2.length + 1) :: t2 :: v2)).length =
      v1.length + v2.length + 4 := by
    simp; omega
  rw [hlen]
  rw [eirWalkAux_step _ _ _ _ (by omega) (by omega) (by simp)]
  have hcopy1 : ((t1 :: (v1 ++ (v2.length + 1) :: t2 :: v2)).headD 0 = 8 ∨
      (t1 :: (v1 ++ (v2.length + 1) :: t2 :: v2)).headD 0 = 9) ∧
      ¬(v1.length + 1 - 1 > kMaxNameLength) := by
    refine ⟨?_, by simp only [kMaxNameLength]; omega⟩
    simpa using ht1
  rw [if_pos hcopy1]
  have hval1 : ((t1 :: (v1 ++ (v2.length + 1) :: t2 :: v2)).drop 1).take
      (v1.length + 1 - 1) = v1 := by
    simp only [List.drop_succ_cons, List.drop_zero, Nat.add_sub_cancel]
    exact List.take_left' rfl
  rw [hval1]
  have hnext1 : (t1 :: (v1 ++ (v2.length + 1) :: t2 :: v2)).drop (v1.length + 1) =
      (v2.length + 1) :: t2 :: v2 := by
    simp only [List.drop_succ_cons]
    exact List.drop_left' rfl
  rw [hnext1]
  rw [eirWalkAux_step _ _ _ _ (by omega) (by omega) (by simp)]
  have hcopy2 : ((t2 :: v2).headD 0 = 8 ∨ (t2 :: v2).headD 0 = 9) ∧
      ¬(v2.length + 1 - 1 > kMaxNameLength) := by
    refine ⟨?_, by simp only [kMaxNameLength]; omega⟩
    simpa using ht2
  rw [if_pos hcopy2]
  have hval2 : ((t2 :: v2).drop 1).take (v2.length + 1 - 1) = v2 := by
    simp
  rw [hval2]
  have hnext2 : (t2 :: v2).drop (v2.length + 1) = [] := by
    simp
  rw [hnext2, eirWalkAux_nil]
  rw [overlay, overlay, List.drop_replicate]
  rw [List.drop_append_of_le_length h2]
  simp [List.append_assoc]

theorem eir_name_overlay_witness :
    (bt_parse_le_meta_event
        (wrapAdvReport
          (([65, 66, 67].length + 1) :: 9 ::
            ([65, 66, 67] ++ ([88].length + 1) :: 8 :: [88])))).remoteName
      = some ([88] ++ [65, 66, 67].drop [88].length ++
          List.replicate (31 - [65, 66, 67].length) 0) :=
  eir_name_overlay 9 8 [65, 66, 67] [88] (Or.inr rfl) (Or.inl rfl)
    (by decide) (by decide)

/-- The syscall operations `bt_open_device` can perform, in order. -/
inductive SysOp where
  | openSocket
  | getDevInfo (devId : Int)
  | devUp (devId : Int)
  | hciOpen (devId : Int)
  | getDevAddr (devId : Int)
  deriving DecidableEq

/-- Kernel-side behaviour visible to `bt_open_device` (bt.c lines 38-85):
whether the raw HCI socket can be opened, the device-info ioctl result
(the device name), the `hci_open_dev` result (a descriptor), and the
device's 6-byte address as reported by `hci_devba`. -/
structure DevEnv where
  socketOk : Bool
  devInfo : Int → Option String
  hciOpenDev : Int → Option Nat
  devAddr : Int → List Nat

/-- The observable outcome of `bt_open_device`: the returned error string
(as a `BtErr`, `none` for the NULL return), the outputs written through
`*dd`, `*name` and `*local_address`, and the trace of syscalls made. -/
structure OpenOut where
  err : Option BtErr
  dd : Option Nat
  name : Option String
  addr : Option String
  ops : List SysOp
  deriving DecidableEq

/-- `bt_open_device` (bt.c lines 38-85).  For a negative id the source runs
`asprintf(err, "can't pass negative device id …")` — passing `err` (a NULL
`char*`) BY VALUE where `asprintf` expects `&err` — so `err` is never
assigned and the `return err` returns the initial NULL.  The negative-id
branch therefore reports no error (and performs no syscalls); the value-level
reading below renders that slip faithfully. -/
def bt_open_device (env : DevEnv) (devId : Int) : OpenOut :=
  if devId < 0 then
    { err := none, dd := none, name := none, addr := none, ops := [] }
  else if env.socketOk = false then
    { err := some .socketError, dd := none, name := none, addr := none,
      ops := [.openSocket] }
  else
    match env.devInfo devId with
    | none =>
      { err := some .devInfoError, dd := none, name := none, addr := none,
        ops := [.openSocket, .getDevInfo devId] }
    | some nm =>
      match env.hciOpenDev devId with
      | none =>
        { err := some (.openError devId), dd := none, name := some nm, addr := none,
          ops := [.openSocket, .getDevInfo devId, .devUp devId, .hciOpen devId] }
      | some dd =>
        { err := none, dd := some dd, name := some nm,
          addr := some (baToStr (env.devAddr devId)),
          ops := [.openSocket, .getDevInfo devId, .devUp devId, .hciOpen devId,
                  .getDevAddr devId] }

/-- C8 (code bug): for every negative device id `bt_open_device` performs no
socket or device operation, but — because the source passes `err` by value
to `asprintf` instead of `&err` — it returns the initial NULL error instead
of the non-NULL InvalidArgument error the header comment and spec promise. -/
theorem open_device_negative_id (env : DevEnv) (devId : Int) (h : devId < 0) :
    bt_open_device env devId =
      { err := none, dd := none, name := none, addr := none, ops := [] } := by
  simp [bt_open_device, h]

/-- A concrete device environment for the negative-id witness. -/
def devEnvEmpty : DevEnv :=
  { socketOk := true, devInfo := fun _ => none, hciOpenDev := fun _ => none,
    devAddr := fun _ => [] }

theorem open_device_negative_id_witness :
    bt_open_device devEnvEmpty (-1) =
      { err := none, dd := none, name := none, addr := none, ops := [] } :=
  open_device_negative_id devEnvEmpty (-1) (by decide)
